import Mathlib

/-!
Verification of the Primorial Anchor Conjecture test scripts.

This file gives a shallow embedding of the core algorithms of the
repository's Test_Scripts: the bidirectional nearest-prime search, the
Law I success / composite-failure classifier, the primorial violation
detectors (mod 6, 30, 210, 2310), the correction-radius (Law III)
search, the nearest-primorial-multiple anchor of the CFR test, and the
aggregation state of the frequency / gap pipelines.  The prime
membership set is modelled as an arbitrary membership function
`oracle : Int -> Bool`, exactly the role `prime_set` plays in the
scripts; the loaded prime list is modelled as `pl : Int -> Int`
(random access) or `List Int` where lengths matter.
-/

/-- Result of the bidirectional nearest-prime search: the fields
`min_distance_k`, `q_prime`, `found` of the inner while-loops.
`k_min = 0` with `found = false` encodes the cap-exceeded skip. -/
structure SearchOutcome where
  k_min : Nat
  neighbor_prime : Int
  found : Bool
deriving DecidableEq, Repr

/-- Generic form of the inner while-loop shared by every script:
expand the distance `d` outward, testing the lower candidate
`S - d` (with test `low`) before the upper candidate `S + d`
(with test `upp`); stop at the first hit; give up (`k_min = 0`)
when the fuel (the cap) is exhausted. -/
def searchFrom (low upp : Int → Bool) (S : Int) : Nat → Nat → SearchOutcome
  | _, 0 => ⟨0, 0, false⟩
  | d, fuel + 1 =>
    if low (S - (d : Int)) then ⟨d, S - (d : Int), true⟩
    else if upp (S + (d : Int)) then ⟨d, S + (d : Int), true⟩
    else searchFrom low upp S (d + 1) fuel

/-- The plain search of test-2 / test-3 / test-4 / test-6: both sides
tested directly against the prime set, distances 1..cap. -/
def searchNearest (oracle : Int → Bool) (S : Int) (cap : Nat) : SearchOutcome :=
  searchFrom oracle oracle S 1 cap

/-- The guarded search of test-5-data: the lower candidate is tested
with the extra guard `q_lower > 1`. -/
def searchNearestG (oracle : Int → Bool) (S : Int) (cap : Nat) : SearchOutcome :=
  searchFrom (fun x => decide (1 < x) && oracle x) oracle S 1 cap

/-- is_prime of analyze_composite_k_distribution.py: membership in the
precomputed set, with numbers below 2 rejected outright. -/
def is_prime (num : Int) (oracle : Int → Bool) : Bool :=
  if num < 2 then false else oracle num

/-- The search of analyze_composite_k_distribution.py: both candidate
tests go through is_prime.  (The script's extra look at the upper
candidate when the lower one already hit only executes a `pass` and
changes nothing, so it has no counterpart here.) -/
def analyzeSearch (oracle : Int → Bool) (S : Int) (cap : Nat) : SearchOutcome :=
  searchFrom (fun x => is_prime x oracle) (fun x => is_prime x oracle) S 1 cap

/-- Law I success as in analyze_composite_k_distribution.py line 148:
`k_min == 1` or `k_min` itself is in the prime set. -/
def is_law_I_success (k : Nat) (oracle : Int → Bool) : Bool :=
  (k == 1) || is_prime (k : Int) oracle

/-- Composite-failure test as in test-2 line 125 (and test-4, test-5, test-6):
`min_distance_k > 1 and min_distance_k not in prime_set`. -/
def is_k_composite (k : Nat) (oracle : Int → Bool) : Bool :=
  decide (1 < k) && !(oracle (k : Int))

/-- is_clean_k of test-5-data.py: distance 1 is clean, distances below 2
are not, otherwise membership in the prime set decides. -/
def is_clean_k (k_val : Int) (oracle : Int → Bool) : Bool :=
  if k_val == 1 then true
  else if k_val < 2 then false
  else oracle k_val

/-- defaultdict(int) increment: bump the counter of key `k` by one. -/
def bump (f : Nat → Nat) (k : Nat) : Nat → Nat :=
  fun j => if j = k then f j + 1 else f j

/-- Anchor value at index `j` of the prime list:
`prime_list[j] + prime_list[j+1]`. -/
def anchorAt (pl : Int → Int) (j : Int) : Int :=
  pl j + pl (j + 1)

-- ------------------------------------------------------------------
-- Lemmas about the bidirectional search
-- ------------------------------------------------------------------

lemma searchFrom_miss_step (low upp : Int → Bool) (S : Int) (d fuel : Nat)
    (h1 : low (S - (d : Int)) = false) (h2 : upp (S + (d : Int)) = false) :
    searchFrom low upp S d (fuel + 1) = searchFrom low upp S (d + 1) fuel := by
  simp [searchFrom, h1, h2]

lemma searchFrom_not_found (low upp : Int → Bool) (S : Int) :
    ∀ (fuel d0 : Nat),
      (∀ e : Nat, d0 ≤ e → e < d0 + fuel →
        low (S - (e : Int)) = false ∧ upp (S + (e : Int)) = false) →
      searchFrom low upp S d0 fuel = ⟨0, 0, false⟩ := by
  intro fuel
  induction fuel with
  | zero => intro d0 _; rfl
  | succ n ih =>
    intro d0 h
    have hd := h d0 le_rfl (by omega)
    rw [searchFrom_miss_step low upp S d0 n hd.1 hd.2]
    exact ih (d0 + 1) (fun e he1 he2 => h e (by omega) (by omega))

lemma searchFrom_hit (low upp : Int → Bool) (S : Int) (d : Nat)
    (hhit : low (S - (d : Int)) = true ∨ upp (S + (d : Int)) = true) :
    ∀ (fuel d0 : Nat), d0 ≤ d → d < d0 + fuel →
      (∀ e : Nat, d0 ≤ e → e < d →
        low (S - (e : Int)) = false ∧ upp (S + (e : Int)) = false) →
      searchFrom low upp S d0 fuel =
        ⟨d, if low (S - (d : Int)) then S - (d : Int) else S + (d : Int), true⟩ := by
  intro fuel
  induction fuel with
  | zero => intro d0 h1 h2 _; omega
  | succ n ih =>
    intro d0 h1 h2 hmiss
    rcases eq_or_lt_of_le h1 with heq | hlt2
    · subst heq
      by_cases hl : low (S - (d0 : Int)) = true
      · simp [searchFrom, hl]
      · have hl2 : low (S - (d0 : Int)) = false := by
          simpa using hl
        have hu : upp (S + (d0 : Int)) = true := by
          rcases hhit with h | h
          · rw [hl2] at h; exact absurd h (by simp)
          · exact h
        simp [searchFrom, hl2, hu]
    · have hd := hmiss d0 le_rfl hlt2
      rw [searchFrom_miss_step low upp S d0 n hd.1 hd.2]
      exact ih (d0 + 1) (by omega) (by omega)
        (fun e he1 he2 => hmiss e (by omega) he2)

lemma searchFrom_found_bounds (low upp : Int → Bool) (S : Int) :
    ∀ (fuel d0 : Nat), (searchFrom low upp S d0 fuel).found = true →
      d0 ≤ (searchFrom low upp S d0 fuel).k_min ∧
      (searchFrom low upp S d0 fuel).k_min < d0 + fuel := by
  intro fuel
  induction fuel with
  | zero => intro d0 h; simp [searchFrom] at h
  | succ n ih =>
    intro d0 h
    by_cases hl : low (S - (d0 : Int)) = true
    · simp [searchFrom, hl]
    · have hl2 : low (S - (d0 : Int)) = false := by simpa using hl
      by_cases hu : upp (S + (d0 : Int)) = true
      · simp [searchFrom, hl2, hu]
      · have hu2 : upp (S + (d0 : Int)) = false := by simpa using hu
        rw [searchFrom_miss_step low upp S d0 n hl2 hu2] at h ⊢
        have := ih (d0 + 1) h
        omega

lemma searchFrom_not_found_eq (low upp : Int → Bool) (S : Int) :
    ∀ (fuel d0 : Nat), (searchFrom low upp S d0 fuel).found = false →
      searchFrom low upp S d0 fuel = ⟨0, 0, false⟩ := by
  intro fuel
  induction fuel with
  | zero => intro d0 _; rfl
  | succ n ih =>
    intro d0 h
    by_cases hl : low (S - (d0 : Int)) = true
    · simp [searchFrom, hl] at h
    · have hl2 : low (S - (d0 : Int)) = false := by simpa using hl
      by_cases hu : upp (S + (d0 : Int)) = true
      · simp [searchFrom, hl2, hu] at h
      · have hu2 : upp (S + (d0 : Int)) = false := by simpa using hu
        rw [searchFrom_miss_step low upp S d0 n hl2 hu2] at h ⊢
        exact ih (d0 + 1) h

lemma searchFrom_kzero (low upp : Int → Bool) (S : Int) (fuel d0 : Nat)
    (hd0 : 1 ≤ d0) :
    (searchFrom low upp S d0 fuel).k_min = 0 ↔
      searchFrom low upp S d0 fuel = ⟨0, 0, false⟩ := by
  constructor
  · intro h
    rcases hfound : (searchFrom low upp S d0 fuel).found with hf | hf
    · exact searchFrom_not_found_eq low upp S fuel d0 hfound
    · have := (searchFrom_found_bounds low upp S fuel d0 hfound).1
      omega
  · intro h; rw [h]

-- ------------------------------------------------------------------
-- Pipeline states (the mutable variables of each script's main loop)
-- ------------------------------------------------------------------

/-- Failure-event record of test-2 / test-4 (the dict literal with keys
n_index, S_n, q_prime, k_composite). -/
structure FailureEvent where
  n_index : Int
  S_n : Int
  q_prime : Int
  k_composite : Nat
deriving DecidableEq, Repr

/-- State of run_PAC_classifier_suite (test-2): the overall failure
counter, the three violation lists and the three per-k tallies. -/
structure Test2State where
  total_law_I_failures : Nat
  violations_p2 : List FailureEvent
  violations_p3 : List FailureEvent
  violations_p4 : List FailureEvent
  p2_failures_by_k : Nat → Nat
  p3_failures_by_k : Nat → Nat
  p4_failures_by_k : Nat → Nat

/-- The classifier suite of test-2 lines 137-158, run on one composite
failure: for each primorial filter, tally the k value when the anchor
is perfect for that filter, and record a violation when k is divisible
by one of the tested odd factors. -/
def classify_suite (anchor_S_n : Int) (k : Nat) (ev : FailureEvent)
    (st : Test2State) : Test2State :=
  let km3 := k % 3 == 0
  let km5 := k % 5 == 0
  let km7 := k % 7 == 0
  let st1 :=
    if anchor_S_n % 6 == 0 then
      { st with
        p2_failures_by_k := bump st.p2_failures_by_k k
        violations_p2 :=
          if km3 then st.violations_p2 ++ [ev] else st.violations_p2 }
    else st
  let st2 :=
    if anchor_S_n % 30 == 0 then
      { st1 with
        p3_failures_by_k := bump st1.p3_failures_by_k k
        violations_p3 :=
          if km3 || km5 then st1.violations_p3 ++ [ev] else st1.violations_p3 }
    else st1
  if anchor_S_n % 210 == 0 then
    { st2 with
      p4_failures_by_k := bump st2.p4_failures_by_k k
      violations_p4 :=
        if km3 || km5 || km7 then st2.violations_p4 ++ [ev]
        else st2.violations_p4 }
  else st2

/-- One iteration of the test-2 main loop (lines 93-158): build the
anchor, search up to 2000, skip on k_min = 0, count a composite
failure and hand it to the classifier suite. -/
def test2Step (oracle : Int → Bool) (pl : Int → Int) (i : Int)
    (st : Test2State) : Test2State :=
  let anchor_S_n := anchorAt pl i
  let out := searchNearest oracle anchor_S_n 2000
  if out.k_min == 0 then st
  else if is_k_composite out.k_min oracle then
    classify_suite anchor_S_n out.k_min
      ⟨i, anchor_S_n, out.neighbor_prime, out.k_min⟩
      { st with total_law_I_failures := st.total_law_I_failures + 1 }
  else st

/-- State of run_PAC_mod2310_verification (test-4). -/
structure Test4State where
  total_law_I_failures : Nat
  perfect_mod2310_anchors_found : Nat
  failures_from_perfect_mod2310 : Nat → Nat
  violations_p5 : List FailureEvent

/-- One iteration of the test-4 main loop (lines 75-147): a perfect
(mod 2310) anchor is searched out to 3000 and, on a composite failure,
checked for divisibility of k by 3, 5, 7 or 11; any other anchor is
searched only to 2000 and merely counted into the overall failure
total. -/
def test4Step (oracle : Int → Bool) (pl : Int → Int) (i : Int)
    (st : Test4State) : Test4State :=
  let anchor_S_n := anchorAt pl i
  if anchor_S_n % 2310 == 0 then
    let st1 := { st with
      perfect_mod2310_anchors_found := st.perfect_mod2310_anchors_found + 1 }
    let out := searchNearest oracle anchor_S_n 3000
    if out.k_min == 0 then st1
    else if is_k_composite out.k_min oracle then
      let st2 := { st1 with
        total_law_I_failures := st1.total_law_I_failures + 1
        failures_from_perfect_mod2310 :=
          bump st1.failures_from_perfect_mod2310 out.k_min }
      if out.k_min % 3 == 0 || out.k_min % 5 == 0 ||
          out.k_min % 7 == 0 || out.k_min % 11 == 0 then
        { st2 with violations_p5 :=
            st2.violations_p5 ++ [⟨i, anchor_S_n, out.neighbor_prime, out.k_min⟩] }
      else st2
    else st1
  else
    let out := searchNearest oracle anchor_S_n 2000
    if out.k_min == 0 then st
    else if is_k_composite out.k_min oracle then
      { st with total_law_I_failures := st.total_law_I_failures + 1 }
    else st

/-- State of analyze_k_distribution: the failure counter and the
composite-k frequency tally. -/
structure KDistState where
  total_law_I_failures : Nat
  composite_k_counts : Nat → Nat

/-- One iteration of the analyze_composite_k_distribution main loop
(lines 96-153), including the in-loop fatal coverage check of lines
100-106.  The Bool is the fatal flag: true aborts the whole run. -/
def analyzeStep (oracle : Int → Bool) (max_prime_in_set : Int)
    (anchor_sum : Int) (st : KDistState) : KDistState × Bool :=
  if max_prime_in_set < anchor_sum + 2000 then (st, true)
  else
    let out := analyzeSearch oracle anchor_sum 2000
    if out.k_min == 0 then (st, false)
    else if is_law_I_success out.k_min oracle then (st, false)
    else
      ({ total_law_I_failures := st.total_law_I_failures + 1
         composite_k_counts := bump st.composite_k_counts out.k_min }, false)

/-- The analyze_composite_k_distribution main loop over a list of
indices: each index yields the anchor prime_list[i] + prime_list[i+1];
a fatal coverage failure stops the whole run. -/
def runAnalyze (oracle : Int → Bool) (max_prime_in_set : Int)
    (pl : Int → Int) : List Int → KDistState → KDistState
  | [], st => st
  | i :: rest, st =>
    let res := analyzeStep oracle max_prime_in_set (anchorAt pl i) st
    if res.2 then res.1 else runAnalyze oracle max_prime_in_set pl rest res.1

/-- Per-k bucket of test-6: occurrence count plus running gap sum. -/
structure GapStat where
  count : Nat
  gap_sum : Int
deriving DecidableEq, Repr

/-- State of run_PAC_failure_gap_correlation (test-6). -/
structure Test6State where
  total_law_I_failures : Nat
  gap_stats_by_k : Nat → GapStat
  total_gap_sum_overall : Int
  total_anchors_analyzed : Nat

/-- One iteration of the test-6 main loop (lines 72-108): the overall
gap counters are updated for every anchor before the search; the
failure counter and the per-k gap bucket are touched only on a
composite failure. -/
def test6Step (oracle : Int → Bool) (pl : Int → Int) (i : Int)
    (st : Test6State) : Test6State :=
  let p_n := pl i
  let p_n_plus_1 := pl (i + 1)
  let anchor_S_n := p_n + p_n_plus_1
  let gap_g_n := p_n_plus_1 - p_n
  let st0 := { st with
    total_anchors_analyzed := st.total_anchors_analyzed + 1
    total_gap_sum_overall := st.total_gap_sum_overall + gap_g_n }
  let out := searchNearest oracle anchor_S_n 2000
  if out.k_min == 0 then st0
  else if is_k_composite out.k_min oracle then
    { st0 with
      total_law_I_failures := st0.total_law_I_failures + 1
      gap_stats_by_k := fun j =>
        if j = out.k_min then
          ⟨(st0.gap_stats_by_k j).count + 1, (st0.gap_stats_by_k j).gap_sum + gap_g_n⟩
        else st0.gap_stats_by_k j }
  else st0

/-- One CSV row of test-5-data (fieldnames list, lines 93-98). -/
structure Law3Row where
  n_index : Int
  Sn : Int
  q_prime : Int
  k_composite : Nat
  Sn_mod6 : Int
  Sn_mod30 : Int
  Sn_mod210 : Int
  fix_radius_r : Nat
  S_fix : Int
  Sfix_mod6 : Int
  Sfix_mod30 : Int
  Sfix_mod210 : Int
deriving DecidableEq, Repr

/-- State of run_PAC_Law3_correlation_test (test-5-data). -/
structure Law3State where
  total_law_I_failures : Nat
  max_r_observed : Nat
  law_III_failures : List Int
  correlation_data : List Law3Row

/-- The Law III correction-radius search of test-5-data lines 164-181:
for r = 1, 2, ... check the anchor at index i - r before the anchor at
index i + r, looking for a clean (unit or prime) distance to the same
neighbor prime q; fuel counts the remaining radii (the source cap is
MAX_LAW_III_RADIUS = 30). -/
def fixSearchAux (oracle : Int → Bool) (pl : Int → Int) (i q : Int) :
    Nat → Nat → Option (Nat × Int)
  | _, 0 => none
  | r, fuel + 1 =>
    let S_prev := anchorAt pl (i - (r : Int))
    if is_clean_k |S_prev - q| oracle then some (r, S_prev)
    else
      let S_next := anchorAt pl (i + (r : Int))
      if is_clean_k |S_next - q| oracle then some (r, S_next)
      else fixSearchAux oracle pl i q (r + 1) fuel

/-- The full correction-radius search, radii 1..30. -/
def fixSearch (oracle : Int → Bool) (pl : Int → Int) (i q : Int) :
    Option (Nat × Int) :=
  fixSearchAux oracle pl i q 1 30

/-- One iteration of the test-5-data main loop (lines 114-205).  The
Bool result is the stop flag: true reproduces the `break` of the Law
III falsification path and halts the whole run. -/
def law3Step (oracle : Int → Bool) (pl : Int → Int) (i : Int)
    (st : Law3State) : Law3State × Bool :=
  let anchor_S_n := anchorAt pl i
  let out := searchNearestG oracle anchor_S_n 3000
  if out.k_min == 0 then (st, false)
  else if is_k_composite out.k_min oracle then
    let st1 := { st with total_law_I_failures := st.total_law_I_failures + 1 }
    match fixSearch oracle pl i out.neighbor_prime with
    | some (r, S_fix) =>
      let st2 :=
        if st1.max_r_observed < r then { st1 with max_r_observed := r } else st1
      let row : Law3Row :=
        ⟨i, anchor_S_n, out.neighbor_prime, out.k_min,
          anchor_S_n % 6, anchor_S_n % 30, anchor_S_n % 210,
          r, S_fix, S_fix % 6, S_fix % 30, S_fix % 210⟩
      ({ st2 with correlation_data := st2.correlation_data ++ [row] }, false)
    | none =>
      ({ st1 with law_III_failures := st1.law_III_failures ++ [i] }, true)
  else (st, false)

/-- The test-5-data main loop over a list of indices; a true stop flag
ends the run immediately (the Law III falsification `break`). -/
def runLaw3 (oracle : Int → Bool) (pl : Int → Int) :
    List Int → Law3State → Law3State
  | [], st => st
  | i :: rest, st =>
    let res := law3Step oracle pl i st
    if res.2 then res.1 else runLaw3 oracle pl rest res.1

/-- get_closest_anchor of test-1-pac-cfr.py lines 44-55: the multiple
of the primorial below q, the one above it, and whichever is nearer
(the upper one on a tie). -/
def get_closest_anchor (q primorial : Nat) : Nat :=
  let A_below := q / primorial * primorial
  let A_above := A_below + primorial
  if q - A_below < A_above - q then A_below else A_above

/-- The pre-loop size check of test-2 lines 53-58 (same shape in
test-3, test-4, test-6): the run proceeds exactly when the file holds
at least MAX_PRIME_PAIRS_TO_TEST + START_INDEX + 10 primes. -/
def test2_precheck (pl : List Int) (max_pairs start_index : Nat) : Bool :=
  decide (max_pairs + start_index + 10 ≤ pl.length)

/-- Modelled from the spec's words (section 4.1 / section 6): the prime
list covers the maximum possible lookup, that is, every anchor of the
tested range plus the search cap stays within the largest loaded
prime.  No pipeline under src computes this predicate before its main
loop; it is stated here to compare the spec's claim with the checks
the code performs. -/
def spec_covers_max_lookup (pl : List Int) (max_pairs start_index cap : Nat) : Prop :=
  ∀ i : Nat, start_index ≤ i → i < start_index + max_pairs →
    pl.getD i 0 + pl.getD (i + 1) 0 + cap ≤ pl.foldr max 0

-- ------------------------------------------------------------------
-- Helper lemmas
-- ------------------------------------------------------------------

lemma list_ne_append_singleton {α : Type} (l : List α) (a : α) :
    ¬ (l = l ++ [a]) := by
  intro h
  have := congrArg List.length h
  simp at this

lemma sum_bump (f : Nat → Nat) (k N : Nat) (hk : k < N) :
    ∑ j ∈ Finset.range N, bump f k j = (∑ j ∈ Finset.range N, f j) + 1 := by
  have h1 : ∀ j ∈ Finset.range N, bump f k j = f j + (if j = k then 1 else 0) := by
    intro j _
    unfold bump
    split <;> simp
  rw [Finset.sum_congr rfl h1, Finset.sum_add_distrib,
    Finset.sum_ite_eq' (Finset.range N) k (fun _ => 1)]
  simp [Finset.mem_range, hk]

lemma odd_prime_factor_6 (k : Nat) :
    (∃ p : Nat, p.Prime ∧ p ≠ 2 ∧ p ∣ 6 ∧ p ∣ k) ↔ 3 ∣ k := by
  constructor
  · rintro ⟨p, hp, h2, h6, hk⟩
    have h6m : p ∣ 2 * 3 := by norm_num; exact h6
    rcases (Nat.Prime.dvd_mul hp).mp h6m with h | h
    · exact absurd ((Nat.prime_dvd_prime_iff_eq hp Nat.prime_two).mp h) h2
    · have : p = 3 := (Nat.prime_dvd_prime_iff_eq hp Nat.prime_three).mp h
      subst this; exact hk
  · intro h; exact ⟨3, by norm_num, by norm_num, by norm_num, h⟩

lemma odd_prime_factor_30 (k : Nat) :
    (∃ p : Nat, p.Prime ∧ p ≠ 2 ∧ p ∣ 30 ∧ p ∣ k) ↔ (3 ∣ k ∨ 5 ∣ k) := by
  constructor
  · rintro ⟨p, hp, h2, h30, hk⟩
    have hm : p ∣ 2 * (3 * 5) := by norm_num; exact h30
    rcases (Nat.Prime.dvd_mul hp).mp hm with h | h
    · exact absurd ((Nat.prime_dvd_prime_iff_eq hp Nat.prime_two).mp h) h2
    rcases (Nat.Prime.dvd_mul hp).mp h with h | h
    · have : p = 3 := (Nat.prime_dvd_prime_iff_eq hp Nat.prime_three).mp h
      subst this; exact Or.inl hk
    · have : p = 5 := (Nat.prime_dvd_prime_iff_eq hp (by norm_num)).mp h
      subst this; exact Or.inr hk
  · rintro (h | h)
    · exact ⟨3, by norm_num, by norm_num, by norm_num, h⟩
    · exact ⟨5, by norm_num, by norm_num, by norm_num, h⟩

lemma odd_prime_factor_210 (k : Nat) :
    (∃ p : Nat, p.Prime ∧ p ≠ 2 ∧ p ∣ 210 ∧ p ∣ k) ↔
      (3 ∣ k ∨ 5 ∣ k ∨ 7 ∣ k) := by
  constructor
  · rintro ⟨p, hp, h2, h210, hk⟩
    have hm : p ∣ 2 * (3 * (5 * 7)) := by norm_num; exact h210
    rcases (Nat.Prime.dvd_mul hp).mp hm with h | h
    · exact absurd ((Nat.prime_dvd_prime_iff_eq hp Nat.prime_two).mp h) h2
    rcases (Nat.Prime.dvd_mul hp).mp h with h | h
    · have : p = 3 := (Nat.prime_dvd_prime_iff_eq hp Nat.prime_three).mp h
      subst this; exact Or.inl hk
    rcases (Nat.Prime.dvd_mul hp).mp h with h | h
    · have : p = 5 := (Nat.prime_dvd_prime_iff_eq hp (by norm_num)).mp h
      subst this; exact Or.inr (Or.inl hk)
    · have : p = 7 := (Nat.prime_dvd_prime_iff_eq hp (by norm_num)).mp h
      subst this; exact Or.inr (Or.inr hk)
  · rintro (h | h | h)
    · exact ⟨3, by norm_num, by norm_num, by norm_num, h⟩
    · exact ⟨5, by norm_num, by norm_num, by norm_num, h⟩
    · exact ⟨7, by norm_num, by norm_num, by norm_num, h⟩

lemma odd_prime_factor_2310 (k : Nat) :
    (∃ p : Nat, p.Prime ∧ p ≠ 2 ∧ p ∣ 2310 ∧ p ∣ k) ↔
      (3 ∣ k ∨ 5 ∣ k ∨ 7 ∣ k ∨ 11 ∣ k) := by
  constructor
  · rintro ⟨p, hp, h2, h2310, hk⟩
    have hm : p ∣ 2 * (3 * (5 * (7 * 11))) := by norm_num; exact h2310
    rcases (Nat.Prime.dvd_mul hp).mp hm with h | h
    · exact absurd ((Nat.prime_dvd_prime_iff_eq hp Nat.prime_two).mp h) h2
    rcases (Nat.Prime.dvd_mul hp).mp h with h | h
    · have : p = 3 := (Nat.prime_dvd_prime_iff_eq hp Nat.prime_three).mp h
      subst this; exact Or.inl hk
    rcases (Nat.Prime.dvd_mul hp).mp h with h | h
    · have : p = 5 := (Nat.prime_dvd_prime_iff_eq hp (by norm_num)).mp h
      subst this; exact Or.inr (Or.inl hk)
    rcases (Nat.Prime.dvd_mul hp).mp h with h | h
    · have : p = 7 := (Nat.prime_dvd_prime_iff_eq hp (by norm_num)).mp h
      subst this; exact Or.inr (Or.inr (Or.inl hk))
    · have : p = 11 := (Nat.prime_dvd_prime_iff_eq hp (by norm_num)).mp h
      subst this; exact Or.inr (Or.inr (Or.inr hk))
  · rintro (h | h | h | h)
    · exact ⟨3, by norm_num, by norm_num, by norm_num, h⟩
    · exact ⟨5, by norm_num, by norm_num, by norm_num, h⟩
    · exact ⟨7, by norm_num, by norm_num, by norm_num, h⟩
    · exact ⟨11, by norm_num, by norm_num, by norm_num, h⟩

-- ------------------------------------------------------------------
-- Claim theorems
-- ------------------------------------------------------------------

/-- C2: Law I classifier dichotomy.  Whenever the nearest-prime search
succeeds (found = true), the minimal distance is at least 1; Law I
success holds iff k_min = 1 or k_min is itself in the prime oracle;
exactly one of success and composite failure holds; and every
composite failure has k_min outside the oracle and k_min different
from 1. -/
theorem law1_classifier_dichotomy (oracle : Int → Bool) (S : Int)
    (cap k : Nat) (q : Int)
    (hout : searchNearest oracle S cap = ⟨k, q, true⟩) :
    1 ≤ k ∧
    (is_law_I_success k oracle = true ↔ (k = 1 ∨ oracle (k : Int) = true)) ∧
    ((is_law_I_success k oracle = true ∧ is_k_composite k oracle = false) ∨
      (is_law_I_success k oracle = false ∧ is_k_composite k oracle = true)) ∧
    (is_k_composite k oracle = true → oracle (k : Int) = false ∧ k ≠ 1) := by
  have hfound : (searchNearest oracle S cap).found = true := by rw [hout]
  have hb := searchFrom_found_bounds oracle oracle S cap 1 hfound
  have hout2 : searchFrom oracle oracle S 1 cap = ⟨k, q, true⟩ := hout
  rw [hout2] at hb
  have hk1 : 1 ≤ k := hb.1
  by_cases hk : k = 1
  · subst hk
    refine ⟨le_rfl, ?_, ?_, ?_⟩
    · simp [is_law_I_success]
    · left
      constructor
      · simp [is_law_I_success]
      · simp [is_k_composite]
    · intro h
      simp [is_k_composite] at h
  · have hk2 : 2 ≤ k := by omega
    have hip : is_prime (k : Int) oracle = oracle (k : Int) := by
      unfold is_prime
      rw [if_neg (by omega)]
    have hsucc : is_law_I_success k oracle = oracle (k : Int) := by
      unfold is_law_I_success
      rw [hip]
      simp [hk]
    have hcomp : is_k_composite k oracle = !(oracle (k : Int)) := by
      unfold is_k_composite
      simp [show 1 < k by omega]
    refine ⟨hk1, ?_, ?_, ?_⟩
    · rw [hsucc]
      simp [hk]
    · rw [hsucc, hcomp]
      cases ho : oracle (k : Int)
      · right; simp
      · left; simp
    · intro h
      rw [hcomp] at h
      refine ⟨by simpa using h, hk⟩

/-- C2 witness: the search around S = 5 with the oracle containing
only 4 succeeds with k_min = 1, and the dichotomy conclusions hold
there. -/
theorem law1_classifier_dichotomy_witness :
    searchNearest (fun x => decide (x = 4)) 5 2000 = ⟨1, 4, true⟩ ∧
    (1 ≤ 1 ∧
      (is_law_I_success 1 (fun x => decide (x = 4)) = true ↔
        (1 = 1 ∨ (fun x => decide (x = 4)) ((1 : Nat) : Int) = true)) ∧
      ((is_law_I_success 1 (fun x => decide (x = 4)) = true ∧
          is_k_composite 1 (fun x => decide (x = 4)) = false) ∨
        (is_law_I_success 1 (fun x => decide (x = 4)) = false ∧
          is_k_composite 1 (fun x => decide (x = 4)) = true)) ∧
      (is_k_composite 1 (fun x => decide (x = 4)) = true →
        (fun x => decide (x = 4)) ((1 : Nat) : Int) = false ∧ 1 ≠ 1)) :=
  ⟨by decide, law1_classifier_dichotomy (fun x => decide (x = 4)) 5 2000 1 4 (by decide)⟩

/-- C3: tie-break determinism of the nearest-prime search.  If no
prime lies at any distance below d and a prime lies at distance d on
at least one side, the search returns k_min = d with the lower
candidate S - d preferred, so on a tie the recorded neighbor is the
lower candidate while k_min is d no matter how the tie would have been
broken. -/
theorem tie_break_determinism (oracle : Int → Bool) (S : Int) (cap d : Nat)
    (hd1 : 1 ≤ d) (hd2 : d ≤ cap)
    (hmiss : ∀ e : Nat, 1 ≤ e → e < d →
      oracle (S - (e : Int)) = false ∧ oracle (S + (e : Int)) = false)
    (hhit : oracle (S - (d : Int)) = true ∨ oracle (S + (d : Int)) = true) :
    searchNearest oracle S cap =
      ⟨d, if oracle (S - (d : Int)) then S - (d : Int) else S + (d : Int), true⟩ ∧
    (oracle (S - (d : Int)) = true →
      (searchNearest oracle S cap).neighbor_prime = S - (d : Int)) := by
  have h : searchNearest oracle S cap =
      ⟨d, if oracle (S - (d : Int)) then S - (d : Int) else S + (d : Int), true⟩ :=
    searchFrom_hit oracle oracle S d hhit cap 1 hd1 (by omega) hmiss
  refine ⟨h, ?_⟩
  intro hlow
  rw [h]
  simp [hlow]

/-- C3 witness: around S = 10 with oracle {7, 13}, both 7 and 13 sit
at the minimal distance 3 and the search records the lower one. -/
theorem tie_break_determinism_witness :
    searchNearest (fun x => decide (x = 7 ∨ x = 13)) 10 2000 = ⟨3, 7, true⟩ ∧
    ((fun x => decide (x = 7 ∨ x = 13)) (10 - ((3 : Nat) : Int)) = true →
      (searchNearest (fun x => decide (x = 7 ∨ x = 13)) 10 2000).neighbor_prime =
        10 - ((3 : Nat) : Int)) := by
  have h := tie_break_determinism (fun x => decide (x = 7 ∨ x = 13)) 10 2000 3
    (by omega) (by omega)
    (by intro e h1 h2; interval_cases e <;> exact ⟨by decide, by decide⟩)
    (by left; decide)
  constructor
  · rw [h.1]; decide
  · exact h.2

/-- C4: cap-skip semantics.  An anchor with no prime within the search
cap makes every searcher variant return found = false with k_min = 0;
the analyze pipeline step leaves its state (failure count and k
bucket) completely unchanged, and the test-6 step leaves its failure
count and its gap bucket unchanged: the anchor enters no success
count, no failure count and no aggregation bucket, and the run simply
moves on. -/
theorem cap_skip_semantics (oracle : Int → Bool) (S max_prime_in_set : Int)
    (pl : Int → Int) (i : Int) (stA : KDistState) (st6 : Test6State)
    (hmiss : ∀ e : Nat, 1 ≤ e → e ≤ 3000 →
      oracle (S - (e : Int)) = false ∧ oracle (S + (e : Int)) = false)
    (hcov : S + 2000 ≤ max_prime_in_set)
    (hanchor : pl i + pl (i + 1) = S) :
    searchNearest oracle S 2000 = ⟨0, 0, false⟩ ∧
    searchNearest oracle S 3000 = ⟨0, 0, false⟩ ∧
    searchNearestG oracle S 3000 = ⟨0, 0, false⟩ ∧
    analyzeSearch oracle S 2000 = ⟨0, 0, false⟩ ∧
    analyzeStep oracle max_prime_in_set S stA = (stA, false) ∧
    (test6Step oracle pl i st6).total_law_I_failures = st6.total_law_I_failures ∧
    (test6Step oracle pl i st6).gap_stats_by_k = st6.gap_stats_by_k := by
  have hip : ∀ x : Int, oracle x = false → is_prime x oracle = false := by
    intro x hx
    unfold is_prime
    split
    · rfl
    · exact hx
  have h2000 : searchNearest oracle S 2000 = ⟨0, 0, false⟩ :=
    searchFrom_not_found oracle oracle S 2000 1
      (fun e he1 he2 => hmiss e he1 (by omega))
  have h3000 : searchNearest oracle S 3000 = ⟨0, 0, false⟩ :=
    searchFrom_not_found oracle oracle S 3000 1
      (fun e he1 he2 => hmiss e he1 (by omega))
  have hG : searchNearestG oracle S 3000 = ⟨0, 0, false⟩ :=
    searchFrom_not_found (fun x => decide (1 < x) && oracle x) oracle S 3000 1
      (fun e he1 he2 =>
        ⟨by
          have hx := (hmiss e he1 (by omega)).1
          show (decide (1 < S - (e : Int)) && oracle (S - (e : Int))) = false
          rw [hx, Bool.and_false],
        (hmiss e he1 (by omega)).2⟩)
  have hA : analyzeSearch oracle S 2000 = ⟨0, 0, false⟩ :=
    searchFrom_not_found (fun x => is_prime x oracle) (fun x => is_prime x oracle)
      S 2000 1
      (fun e he1 he2 =>
        ⟨hip _ (hmiss e he1 (by omega)).1, hip _ (hmiss e he1 (by omega)).2⟩)
  have hstep : analyzeStep oracle max_prime_in_set S stA = (stA, false) := by
    unfold analyzeStep
    rw [if_neg (not_lt.mpr hcov)]
    simp [hA]
  have hs6 : searchNearest oracle (pl i + pl (i + 1)) 2000 = ⟨0, 0, false⟩ := by
    rw [hanchor]; exact h2000
  refine ⟨h2000, h3000, hG, hA, hstep, ?_, ?_⟩
  · unfold test6Step
    simp [hs6]
  · unfold test6Step
    simp [hs6]

/-- C4 witness: with an empty oracle around S = 0 every search gives
up, and neither the analyze state nor the test-6 failure data moves. -/
theorem cap_skip_semantics_witness :
    searchNearest (fun _ => false) 0 2000 = ⟨0, 0, false⟩ ∧
    searchNearest (fun _ => false) 0 3000 = ⟨0, 0, false⟩ ∧
    searchNearestG (fun _ => false) 0 3000 = ⟨0, 0, false⟩ ∧
    analyzeSearch (fun _ => false) 0 2000 = ⟨0, 0, false⟩ ∧
    analyzeStep (fun _ => false) 2000 0 ⟨0, fun _ => 0⟩ = (⟨0, fun _ => 0⟩, false) ∧
    (test6Step (fun _ => false) (fun _ => 0) 0
      ⟨0, fun _ => ⟨0, 0⟩, 0, 0⟩).total_law_I_failures = 0 ∧
    (test6Step (fun _ => false) (fun _ => 0) 0
      ⟨0, fun _ => ⟨0, 0⟩, 0, 0⟩).gap_stats_by_k = fun _ => ⟨0, 0⟩ :=
  cap_skip_semantics (fun _ => false) 0 2000 (fun _ => 0) 0
    ⟨0, fun _ => 0⟩ ⟨0, fun _ => ⟨0, 0⟩, 0, 0⟩
    (fun e h1 h2 => ⟨rfl, rfl⟩) (by omega) rfl

/-- Initial state of the analyze pipeline: counter 0 and the empty
defaultdict. -/
def initKDistState : KDistState := ⟨0, fun _ => 0⟩

lemma runAnalyze_cons (oracle : Int → Bool) (maxP : Int) (pl : Int → Int)
    (i : Int) (rest : List Int) (st : KDistState) :
    runAnalyze oracle maxP pl (i :: rest) st =
      if (analyzeStep oracle maxP (anchorAt pl i) st).2 then
        (analyzeStep oracle maxP (anchorAt pl i) st).1
      else runAnalyze oracle maxP pl rest
        (analyzeStep oracle maxP (anchorAt pl i) st).1 := rfl

lemma analyzeStep_invariant (oracle : Int → Bool) (maxP S : Int)
    (st : KDistState)
    (h1 : ∀ j, 2000 < j → st.composite_k_counts j = 0)
    (h2 : ∑ j ∈ Finset.range 2001, st.composite_k_counts j =
      st.total_law_I_failures) :
    (∀ j, 2000 < j →
      (analyzeStep oracle maxP S st).1.composite_k_counts j = 0) ∧
    (∑ j ∈ Finset.range 2001,
      (analyzeStep oracle maxP S st).1.composite_k_counts j =
      (analyzeStep oracle maxP S st).1.total_law_I_failures) := by
  by_cases hfatal : maxP < S + 2000
  · unfold analyzeStep
    rw [if_pos hfatal]
    exact ⟨h1, h2⟩
  · unfold analyzeStep
    rw [if_neg hfatal]
    rcases hout : analyzeSearch oracle S 2000 with ⟨k, q, f⟩
    have hout2 : searchFrom (fun x => is_prime x oracle)
        (fun x => is_prime x oracle) S 1 2000 = ⟨k, q, f⟩ := hout
    by_cases hk0 : k = 0
    · subst hk0
      simp only [beq_self_eq_true, if_true]
      exact ⟨h1, h2⟩
    · have hbeq : (k == 0) = false := by simp [hk0]
      simp only [hbeq, Bool.false_eq_true, if_false]
      have hf : f = true := by
        by_contra hf
        have hf2 : f = false := by simpa using hf
        subst hf2
        have heq0 := searchFrom_not_found_eq (fun x => is_prime x oracle)
          (fun x => is_prime x oracle) S 2000 1 (by rw [hout2])
        rw [hout2] at heq0
        exact hk0 (by injection heq0)
      subst hf
      have hb : 1 ≤ k ∧ k < 2001 := by
        have hfound : (searchFrom (fun x => is_prime x oracle)
            (fun x => is_prime x oracle) S 1 2000).found = true := by
          rw [hout2]
        have hraw := searchFrom_found_bounds (fun x => is_prime x oracle)
          (fun x => is_prime x oracle) S 2000 1 hfound
        rw [hout2] at hraw
        simpa using hraw
      by_cases hsucc : is_law_I_success k oracle = true
      · rw [if_pos hsucc]
        exact ⟨h1, h2⟩
      · rw [if_neg hsucc]
        constructor
        · intro j hj
          show bump st.composite_k_counts k j = 0
          unfold bump
          rw [if_neg (by omega)]
          exact h1 j hj
        · show ∑ j ∈ Finset.range 2001, bump st.composite_k_counts k j =
            st.total_law_I_failures + 1
          rw [sum_bump st.composite_k_counts k 2001 (by omega), h2]

/-- C9: frequency-tally bucket conservation.  After any complete pass
of the analyze pipeline from the initial state, the sum of the per-key
occurrence counts of the composite-k bucket equals the total
composite-failure count, and no key above the search cap is ever
populated (so the bounded sum is the sum over all keys): both counters
move together, once per composite failure, and no other event touches
them. -/
theorem bucket_conservation (oracle : Int → Bool) (maxP : Int)
    (pl : Int → Int) (idxs : List Int) :
    (∑ j ∈ Finset.range 2001,
      (runAnalyze oracle maxP pl idxs initKDistState).composite_k_counts j) =
      (runAnalyze oracle maxP pl idxs initKDistState).total_law_I_failures ∧
    (∀ j, 2000 < j →
      (runAnalyze oracle maxP pl idxs initKDistState).composite_k_counts j = 0) := by
  suffices h : ∀ (l : List Int) (st : KDistState),
      (∀ j, 2000 < j → st.composite_k_counts j = 0) →
      (∑ j ∈ Finset.range 2001, st.composite_k_counts j =
        st.total_law_I_failures) →
      (∀ j, 2000 < j →
        (runAnalyze oracle maxP pl l st).composite_k_counts j = 0) ∧
      (∑ j ∈ Finset.range 2001,
        (runAnalyze oracle maxP pl l st).composite_k_counts j =
        (runAnalyze oracle maxP pl l st).total_law_I_failures) by
    have hmain := h idxs initKDistState (fun j hj => rfl)
      (by simp [initKDistState])
    exact ⟨hmain.2, hmain.1⟩
  intro l
  induction l with
  | nil => intro st ha hb; exact ⟨ha, hb⟩
  | cons i rest ih =>
    intro st ha hb
    have hstep := analyzeStep_invariant oracle maxP (anchorAt pl i) st ha hb
    rw [runAnalyze_cons]
    by_cases hhalt : (analyzeStep oracle maxP (anchorAt pl i) st).2 = true
    · rw [if_pos hhalt]
      exact hstep
    · rw [if_neg hhalt]
      exact ih _ hstep.1 hstep.2

lemma append_iff_cond {α : Type} (l : List α) (a : α) (c : Bool) :
    ((if c then l ++ [a] else l) = l ++ [a]) ↔ c = true := by
  cases c
  · simp only [Bool.false_eq_true, if_false, iff_false]
    intro h
    exact list_ne_append_singleton l a h
  · simp

lemma classify_suite_p2 (S : Int) (k : Nat) (ev : FailureEvent)
    (st : Test2State) :
    (classify_suite S k ev st).violations_p2 =
      if (S % 6 == 0) && (k % 3 == 0) then st.violations_p2 ++ [ev]
      else st.violations_p2 := by
  unfold classify_suite
  by_cases h6 : (S % 6 == 0) = true <;>
    by_cases h30 : (S % 30 == 0) = true <;>
      by_cases h210 : (S % 210 == 0) = true <;>
        by_cases hk3 : (k % 3 == 0) = true <;>
          simp [h6, h30, h210, hk3]

lemma classify_suite_p3 (S : Int) (k : Nat) (ev : FailureEvent)
    (st : Test2State) :
    (classify_suite S k ev st).violations_p3 =
      if (S % 30 == 0) && (k % 3 == 0 || k % 5 == 0) then st.violations_p3 ++ [ev]
      else st.violations_p3 := by
  unfold classify_suite
  by_cases h6 : (S % 6 == 0) = true <;>
    by_cases h30 : (S % 30 == 0) = true <;>
      by_cases h210 : (S % 210 == 0) = true <;>
        by_cases hk3 : (k % 3 == 0) = true <;>
          by_cases hk5 : (k % 5 == 0) = true <;>
            simp [h6, h30, h210, hk3, hk5]

lemma classify_suite_p4 (S : Int) (k : Nat) (ev : FailureEvent)
    (st : Test2State) :
    (classify_suite S k ev st).violations_p4 =
      if (S % 210 == 0) && (k % 3 == 0 || k % 5 == 0 || k % 7 == 0) then
        st.violations_p4 ++ [ev]
      else st.violations_p4 := by
  unfold classify_suite
  by_cases h6 : (S % 6 == 0) = true <;>
    by_cases h30 : (S % 30 == 0) = true <;>
      by_cases h210 : (S % 210 == 0) = true <;>
        by_cases hk3 : (k % 3 == 0) = true <;>
          by_cases hk5 : (k % 5 == 0) = true <;>
            by_cases hk7 : (k % 7 == 0) = true <;>
              simp [h6, h30, h210, hk3, hk5, hk7]

lemma test4Step_p5 (oracle : Int → Bool) (pl : Int → Int) (i q : Int)
    (k4 : Nat) (st4 : Test4State)
    (hout : searchNearest oracle (anchorAt pl i) 3000 = ⟨k4, q, true⟩)
    (hk : 1 < k4) (hkc : oracle (k4 : Int) = false) :
    (test4Step oracle pl i st4).violations_p5 =
      if (anchorAt pl i % 2310 == 0) &&
          (k4 % 3 == 0 || k4 % 5 == 0 || k4 % 7 == 0 || k4 % 11 == 0) then
        st4.violations_p5 ++ [⟨i, anchorAt pl i, q, k4⟩]
      else st4.violations_p5 := by
  have hcompT : is_k_composite k4 oracle = true := by
    unfold is_k_composite
    rw [hkc]
    simp [hk]
  have hbeq : (k4 == 0) = false := by
    simp
    omega
  unfold test4Step
  by_cases h2310 : ((anchorAt pl i) % 2310 == 0) = true
  · simp only [h2310, if_true, Bool.true_and]
    rw [hout]
    simp only [hbeq, Bool.false_eq_true, if_false, hcompT, if_true]
    by_cases hdiv :
        (k4 % 3 == 0 || k4 % 5 == 0 || k4 % 7 == 0 || k4 % 11 == 0) = true <;>
      simp [hdiv]
  · have h2310f : ((anchorAt pl i) % 2310 == 0) = false := by
      simpa using h2310
    simp only [h2310f, Bool.false_eq_true, if_false, Bool.false_and]
    by_cases hz : ((searchNearest oracle (anchorAt pl i) 2000).k_min == 0) = true
    · simp [hz]
    · by_cases hc :
          is_k_composite (searchNearest oracle (anchorAt pl i) 2000).k_min oracle = true <;>
        simp [hz, hc]

/-- C1: the violation detectors.  For a composite-failure event with
anchor S and minimal distance k, the test-2 classifier suite records
the event as a violation of modulus M (M = 6, 30, 210) exactly when
S is divisible by M and k is divisible by an odd prime factor of M,
and the test-4 step records a mod-2310 violation exactly when S is
divisible by 2310 and k is divisible by an odd prime factor of 2310;
the factor 2 is never tested. -/
theorem violation_detector_iff (S : Int) (k : Nat) (ev : FailureEvent)
    (st : Test2State) (oracle : Int → Bool) (pl : Int → Int) (i q : Int)
    (k4 : Nat) (st4 : Test4State)
    (hout : searchNearest oracle (anchorAt pl i) 3000 = ⟨k4, q, true⟩)
    (hk : 1 < k4) (hkc : oracle (k4 : Int) = false) :
    ((classify_suite S k ev st).violations_p2 = st.violations_p2 ++ [ev] ↔
      (S % 6 = 0 ∧ ∃ p : Nat, p.Prime ∧ p ≠ 2 ∧ p ∣ 6 ∧ p ∣ k)) ∧
    ((classify_suite S k ev st).violations_p3 = st.violations_p3 ++ [ev] ↔
      (S % 30 = 0 ∧ ∃ p : Nat, p.Prime ∧ p ≠ 2 ∧ p ∣ 30 ∧ p ∣ k)) ∧
    ((classify_suite S k ev st).violations_p4 = st.violations_p4 ++ [ev] ↔
      (S % 210 = 0 ∧ ∃ p : Nat, p.Prime ∧ p ≠ 2 ∧ p ∣ 210 ∧ p ∣ k)) ∧
    ((test4Step oracle pl i st4).violations_p5 =
        st4.violations_p5 ++ [⟨i, anchorAt pl i, q, k4⟩] ↔
      (anchorAt pl i % 2310 = 0 ∧
        ∃ p : Nat, p.Prime ∧ p ≠ 2 ∧ p ∣ 2310 ∧ p ∣ k4)) := by
  refine ⟨?_, ?_, ?_, ?_⟩
  · rw [classify_suite_p2, append_iff_cond, odd_prime_factor_6 k]
    simp only [Bool.and_eq_true, beq_iff_eq]
    constructor
    · rintro ⟨a, b⟩; exact ⟨a, by omega⟩
    · rintro ⟨a, b⟩; exact ⟨a, by omega⟩
  · rw [classify_suite_p3, append_iff_cond, odd_prime_factor_30 k]
    simp only [Bool.and_eq_true, Bool.or_eq_true, beq_iff_eq]
    constructor
    · rintro ⟨a, b⟩; exact ⟨a, by omega⟩
    · rintro ⟨a, b⟩; exact ⟨a, by omega⟩
  · rw [classify_suite_p4, append_iff_cond, odd_prime_factor_210 k]
    simp only [Bool.and_eq_true, Bool.or_eq_true, beq_iff_eq]
    constructor
    · rintro ⟨a, b⟩; exact ⟨a, by omega⟩
    · rintro ⟨a, b⟩; exact ⟨a, by omega⟩
  · rw [test4Step_p5 oracle pl i q k4 st4 hout hk hkc, append_iff_cond,
      odd_prime_factor_2310 k4]
    simp only [Bool.and_eq_true, Bool.or_eq_true, beq_iff_eq]
    constructor
    · rintro ⟨a, b⟩; exact ⟨a, by omega⟩
    · rintro ⟨a, b⟩; exact ⟨a, by omega⟩

/-- Empty test-2 state used by the C1 witness. -/
def w1st : Test2State := ⟨0, [], [], [], fun _ => 0, fun _ => 0, fun _ => 0⟩

/-- Empty test-4 state used by the C1 witness. -/
def w1st4 : Test4State := ⟨0, 0, fun _ => 0, []⟩

/-- Oracle of the C1 witness: the single prime 2319 away from nothing
but 2310 + 9. -/
def w1oracle : Int → Bool := fun x => decide (x = 2319)

/-- Prime list of the C1 witness: constant 1155, so every anchor is
2310. -/
def w1pl : Int → Int := fun _ => 1155

/-- C1 witness: the detector iffs evaluated at S = 30, k = 9 for the
classifier suite and at the perfect anchor 2310 with k = 9 for the
mod-2310 step. -/
theorem violation_detector_iff_witness :
    ((classify_suite 30 9 ⟨0, 30, 0, 9⟩ w1st).violations_p2 =
        w1st.violations_p2 ++ [⟨0, 30, 0, 9⟩] ↔
      ((30 : Int) % 6 = 0 ∧ ∃ p : Nat, p.Prime ∧ p ≠ 2 ∧ p ∣ 6 ∧ p ∣ 9)) ∧
    ((classify_suite 30 9 ⟨0, 30, 0, 9⟩ w1st).violations_p3 =
        w1st.violations_p3 ++ [⟨0, 30, 0, 9⟩] ↔
      ((30 : Int) % 30 = 0 ∧ ∃ p : Nat, p.Prime ∧ p ≠ 2 ∧ p ∣ 30 ∧ p ∣ 9)) ∧
    ((classify_suite 30 9 ⟨0, 30, 0, 9⟩ w1st).violations_p4 =
        w1st.violations_p4 ++ [⟨0, 30, 0, 9⟩] ↔
      ((30 : Int) % 210 = 0 ∧ ∃ p : Nat, p.Prime ∧ p ≠ 2 ∧ p ∣ 210 ∧ p ∣ 9)) ∧
    ((test4Step w1oracle w1pl 0 w1st4).violations_p5 =
        w1st4.violations_p5 ++ [⟨0, anchorAt w1pl 0, 2319, 9⟩] ↔
      (anchorAt w1pl 0 % 2310 = 0 ∧
        ∃ p : Nat, p.Prime ∧ p ≠ 2 ∧ p ∣ 2310 ∧ p ∣ 9)) :=
  violation_detector_iff 30 9 ⟨0, 30, 0, 9⟩ w1st w1oracle w1pl 0 2319 9 w1st4
    (by decide) (by decide) (by decide)

lemma fixSearchAux_miss_step (oracle : Int → Bool) (pl : Int → Int)
    (i q : Int) (r fuel : Nat)
    (h1 : is_clean_k |anchorAt pl (i - (r : Int)) - q| oracle = false)
    (h2 : is_clean_k |anchorAt pl (i + (r : Int)) - q| oracle = false) :
    fixSearchAux oracle pl i q r (fuel + 1) =
      fixSearchAux oracle pl i q (r + 1) fuel := by
  simp [fixSearchAux, h1, h2]

lemma fixSearchAux_none (oracle : Int → Bool) (pl : Int → Int) (i q : Int) :
    ∀ (fuel r0 : Nat),
      (∀ s : Nat, r0 ≤ s → s < r0 + fuel →
        is_clean_k |anchorAt pl (i - (s : Int)) - q| oracle = false ∧
        is_clean_k |anchorAt pl (i + (s : Int)) - q| oracle = false) →
      fixSearchAux oracle pl i q r0 fuel = none := by
  intro fuel
  induction fuel with
  | zero => intro r0 _; rfl
  | succ n ih =>
    intro r0 h
    have hd := h r0 le_rfl (by omega)
    rw [fixSearchAux_miss_step oracle pl i q r0 n hd.1 hd.2]
    exact ih (r0 + 1) (fun s hs1 hs2 => h s (by omega) (by omega))

lemma fixSearchAux_hit (oracle : Int → Bool) (pl : Int → Int) (i q : Int)
    (r : Nat)
    (hhit : is_clean_k |anchorAt pl (i - (r : Int)) - q| oracle = true ∨
      is_clean_k |anchorAt pl (i + (r : Int)) - q| oracle = true) :
    ∀ (fuel r0 : Nat), r0 ≤ r → r < r0 + fuel →
      (∀ s : Nat, r0 ≤ s → s < r →
        is_clean_k |anchorAt pl (i - (s : Int)) - q| oracle = false ∧
        is_clean_k |anchorAt pl (i + (s : Int)) - q| oracle = false) →
      fixSearchAux oracle pl i q r0 fuel =
        some (r, if is_clean_k |anchorAt pl (i - (r : Int)) - q| oracle then
          anchorAt pl (i - (r : Int)) else anchorAt pl (i + (r : Int))) := by
  intro fuel
  induction fuel with
  | zero => intro r0 h1 h2 _; omega
  | succ n ih =>
    intro r0 h1 h2 hmiss
    rcases eq_or_lt_of_le h1 with heq | hlt2
    · subst heq
      by_cases hl : is_clean_k |anchorAt pl (i - (r0 : Int)) - q| oracle = true
      · simp [fixSearchAux, hl]
      · have hl2 : is_clean_k |anchorAt pl (i - (r0 : Int)) - q| oracle = false := by
          simpa using hl
        have hu : is_clean_k |anchorAt pl (i + (r0 : Int)) - q| oracle = true := by
          rcases hhit with h | h
          · rw [hl2] at h; exact absurd h (by simp)
          · exact h
        simp [fixSearchAux, hl2, hu]
    · have hd := hmiss r0 le_rfl hlt2
      rw [fixSearchAux_miss_step oracle pl i q r0 n hd.1 hd.2]
      exact ih (r0 + 1) (by omega) (by omega)
        (fun s hs1 hs2 => hmiss s (by omega) hs2)

lemma runLaw3_cons (oracle : Int → Bool) (pl : Int → Int) (i : Int)
    (rest : List Int) (st : Law3State) :
    runLaw3 oracle pl (i :: rest) st =
      if (law3Step oracle pl i st).2 then (law3Step oracle pl i st).1
      else runLaw3 oracle pl rest (law3Step oracle pl i st).1 := rfl

lemma law3Step_skip (oracle : Int → Bool) (pl : Int → Int) (j : Int)
    (st : Law3State)
    (hj : searchNearestG oracle (anchorAt pl j) 3000 = ⟨0, 0, false⟩) :
    law3Step oracle pl j st = (st, false) := by
  unfold law3Step
  simp [hj]

lemma law3Step_fatal (oracle : Int → Bool) (pl : Int → Int) (i : Int)
    (st : Law3State) (k : Nat) (q : Int)
    (hout : searchNearestG oracle (anchorAt pl i) 3000 = ⟨k, q, true⟩)
    (hk : 1 < k) (hkc : oracle (k : Int) = false)
    (hfix : fixSearch oracle pl i q = none) :
    law3Step oracle pl i st =
      ({ st with
          total_law_I_failures := st.total_law_I_failures + 1
          law_III_failures := st.law_III_failures ++ [i] }, true) := by
  have hcompT : is_k_composite k oracle = true := by
    unfold is_k_composite
    rw [hkc]
    simp [hk]
  have hbeq : (k == 0) = false := by
    simp
    omega
  unfold law3Step
  simp only [hout, hbeq, Bool.false_eq_true, if_false, hcompT, if_true, hfix]

lemma law3Step_fix (oracle : Int → Bool) (pl : Int → Int) (i : Int)
    (st : Law3State) (k : Nat) (q : Int) (r : Nat) (S_fix : Int)
    (hout : searchNearestG oracle (anchorAt pl i) 3000 = ⟨k, q, true⟩)
    (hk : 1 < k) (hkc : oracle (k : Int) = false)
    (hfix : fixSearch oracle pl i q = some (r, S_fix)) :
    (law3Step oracle pl i st).1.correlation_data =
      st.correlation_data ++ [⟨i, anchorAt pl i, q, k,
        anchorAt pl i % 6, anchorAt pl i % 30, anchorAt pl i % 210,
        r, S_fix, S_fix % 6, S_fix % 30, S_fix % 210⟩] ∧
    (law3Step oracle pl i st).2 = false := by
  have hcompT : is_k_composite k oracle = true := by
    unfold is_k_composite
    rw [hkc]
    simp [hk]
  have hbeq : (k == 0) = false := by
    simp
    omega
  unfold law3Step
  simp only [hout, hbeq, Bool.false_eq_true, if_false, hcompT, if_true, hfix]
  by_cases hmax : st.max_r_observed < r <;> simp [hmax]

/-- C5: correction-radius search minimality and order.  For a
composite-failure event at index i with neighbor prime q, if no radius
below r yields a clean distance on either side and radius r does, the
Law III search returns exactly r (the smallest such radius) together
with the fixing anchor, preferring the anchor at i - r over the one at
i + r; the test-5 step records the event with fix_radius_r = r and
that fixing anchor. -/
theorem correction_radius_minimality (oracle : Int → Bool) (pl : Int → Int)
    (i q : Int) (r : Nat) (st : Law3State) (k : Nat)
    (hr1 : 1 ≤ r) (hr30 : r ≤ 30)
    (hmiss : ∀ s : Nat, 1 ≤ s → s < r →
      is_clean_k |anchorAt pl (i - (s : Int)) - q| oracle = false ∧
      is_clean_k |anchorAt pl (i + (s : Int)) - q| oracle = false)
    (hhit : is_clean_k |anchorAt pl (i - (r : Int)) - q| oracle = true ∨
      is_clean_k |anchorAt pl (i + (r : Int)) - q| oracle = true)
    (hout : searchNearestG oracle (anchorAt pl i) 3000 = ⟨k, q, true⟩)
    (hk : 1 < k) (hkc : oracle (k : Int) = false) :
    fixSearch oracle pl i q =
      some (r, if is_clean_k |anchorAt pl (i - (r : Int)) - q| oracle then
        anchorAt pl (i - (r : Int)) else anchorAt pl (i + (r : Int))) ∧
    (law3Step oracle pl i st).1.correlation_data =
      st.correlation_data ++ [⟨i, anchorAt pl i, q, k,
        anchorAt pl i % 6, anchorAt pl i % 30, anchorAt pl i % 210, r,
        (if is_clean_k |anchorAt pl (i - (r : Int)) - q| oracle then
          anchorAt pl (i - (r : Int)) else anchorAt pl (i + (r : Int))),
        (if is_clean_k |anchorAt pl (i - (r : Int)) - q| oracle then
          anchorAt pl (i - (r : Int)) else anchorAt pl (i + (r : Int))) % 6,
        (if is_clean_k |anchorAt pl (i - (r : Int)) - q| oracle then
          anchorAt pl (i - (r : Int)) else anchorAt pl (i + (r : Int))) % 30,
        (if is_clean_k |anchorAt pl (i - (r : Int)) - q| oracle then
          anchorAt pl (i - (r : Int)) else anchorAt pl (i + (r : Int))) % 210⟩] ∧
    (law3Step oracle pl i st).2 = false := by
  have hfix : fixSearch oracle pl i q =
      some (r, if is_clean_k |anchorAt pl (i - (r : Int)) - q| oracle then
        anchorAt pl (i - (r : Int)) else anchorAt pl (i + (r : Int))) :=
    fixSearchAux_hit oracle pl i q r hhit 30 1 hr1 (by omega) hmiss
  have hrec := law3Step_fix oracle pl i st k q r _ hout hk hkc hfix
  exact ⟨hfix, hrec.1, hrec.2⟩

/-- Oracle of the C5 witness: the single prime 109. -/
def w5oracle : Int → Bool := fun x => decide (x = 109)

/-- Prime list of the C5 witness: 54 at indices 2 and 3, 50 elsewhere,
so the anchor at 0 is 100, at 1 is 104, at 2 is 108 and at every
negative index 100. -/
def w5pl : Int → Int := fun j => if 2 ≤ j ∧ j ≤ 3 then 54 else 50

/-- Empty Law III state used by the C5 and C6 witnesses. -/
def w5st : Law3State := ⟨0, 0, [], []⟩

/-- C5 witness: the failure at anchor 100 (k = 9 to neighbor 109) is
fixed at radius 2 by the anchor 108 on the upper side, radius 1 having
no clean side. -/
theorem correction_radius_minimality_witness :
    fixSearch w5oracle w5pl 0 109 =
      some (2, if is_clean_k |anchorAt w5pl (0 - ((2 : Nat) : Int)) - 109| w5oracle then
        anchorAt w5pl (0 - ((2 : Nat) : Int)) else anchorAt w5pl (0 + ((2 : Nat) : Int))) ∧
    (law3Step w5oracle w5pl 0 w5st).1.correlation_data =
      w5st.correlation_data ++ [⟨0, anchorAt w5pl 0, 109, 9,
        anchorAt w5pl 0 % 6, anchorAt w5pl 0 % 30, anchorAt w5pl 0 % 210, 2,
        (if is_clean_k |anchorAt w5pl (0 - ((2 : Nat) : Int)) - 109| w5oracle then
          anchorAt w5pl (0 - ((2 : Nat) : Int)) else anchorAt w5pl (0 + ((2 : Nat) : Int))),
        (if is_clean_k |anchorAt w5pl (0 - ((2 : Nat) : Int)) - 109| w5oracle then
          anchorAt w5pl (0 - ((2 : Nat) : Int)) else anchorAt w5pl (0 + ((2 : Nat) : Int))) % 6,
        (if is_clean_k |anchorAt w5pl (0 - ((2 : Nat) : Int)) - 109| w5oracle then
          anchorAt w5pl (0 - ((2 : Nat) : Int)) else anchorAt w5pl (0 + ((2 : Nat) : Int))) % 30,
        (if is_clean_k |anchorAt w5pl (0 - ((2 : Nat) : Int)) - 109| w5oracle then
          anchorAt w5pl (0 - ((2 : Nat) : Int)) else anchorAt w5pl (0 + ((2 : Nat) : Int))) % 210⟩] ∧
    (law3Step w5oracle w5pl 0 w5st).2 = false :=
  correction_radius_minimality w5oracle w5pl 0 109 2 w5st 9
    (by omega) (by omega)
    (by
      intro s h1 h2
      have hs : s = 1 := by omega
      subst hs
      exact ⟨by decide, by decide⟩)
    (Or.inr (by decide))
    (by decide) (by omega) (by decide)

/-- C6: the correction-radius cap is fatal.  When an anchor produces a
composite failure whose Law III search finds no clean radius within 30,
the run processes no further anchors: the whole remaining index list is
discarded and the final state is the current one with the failure
counted and the index appended to the Law III failure list.  By
contrast, an anchor on which the main searcher merely exceeds its cap
is skipped and the run continues with the rest of the list. -/
theorem correction_cap_fatal (oracle : Int → Bool) (pl : Int → Int)
    (i : Int) (st : Law3State) (rest : List Int) (k : Nat) (q : Int)
    (hout : searchNearestG oracle (anchorAt pl i) 3000 = ⟨k, q, true⟩)
    (hk : 1 < k) (hkc : oracle (k : Int) = false)
    (hfix : fixSearch oracle pl i q = none) :
    runLaw3 oracle pl (i :: rest) st =
      { st with
          total_law_I_failures := st.total_law_I_failures + 1
          law_III_failures := st.law_III_failures ++ [i] } ∧
    (law3Step oracle pl i st).2 = true ∧
    (∀ (j : Int) (rest2 : List Int) (st2 : Law3State),
      searchNearestG oracle (anchorAt pl j) 3000 = ⟨0, 0, false⟩ →
      runLaw3 oracle pl (j :: rest2) st2 = runLaw3 oracle pl rest2 st2) := by
  have hstep := law3Step_fatal oracle pl i st k q hout hk hkc hfix
  refine ⟨?_, ?_, ?_⟩
  · rw [runLaw3_cons, hstep]
    simp
  · rw [hstep]
  · intro j rest2 st2 hj
    rw [runLaw3_cons, law3Step_skip oracle pl j st2 hj]
    simp

/-- Oracle of the C6 witness: the single prime 109. -/
def w6oracle : Int → Bool := fun x => decide (x = 109)

/-- Prime list of the C6 witness: constant 50, so every anchor is 100
and the distance to 109 is always the unclean 9. -/
def w6pl : Int → Int := fun _ => 50

/-- C6 witness: at index 0 the anchor 100 fails with k = 9 and no
radius up to 30 fixes it, so the run over [0, 1] halts after index 0. -/
theorem correction_cap_fatal_witness :
    runLaw3 w6oracle w6pl (0 :: [1]) w5st =
      { w5st with
          total_law_I_failures := w5st.total_law_I_failures + 1
          law_III_failures := w5st.law_III_failures ++ [0] } ∧
    (law3Step w6oracle w6pl 0 w5st).2 = true ∧
    (∀ (j : Int) (rest2 : List Int) (st2 : Law3State),
      searchNearestG w6oracle (anchorAt w6pl j) 3000 = ⟨0, 0, false⟩ →
      runLaw3 w6oracle w6pl (j :: rest2) st2 = runLaw3 w6oracle w6pl rest2 st2) :=
  correction_cap_fatal w6oracle w6pl 0 w5st [1] 9 109
    (by decide) (by omega) (by decide) (by decide)

/-- C10: implicit cap asymmetry of the mod-2310 pipeline.  Within one
test-4 run, an anchor whose nearest prime sits at a distance d with
2000 < d <= 3000 is found and classified when the anchor is perfect
mod 2310 (the search there runs to 3000, and a composite d enters the
overall failure total), but is silently skipped otherwise (the
else-branch search stops at 2000 and the state is untouched): the
overall Law I failure total mixes two different cap semantics. -/
theorem mod2310_cap_asymmetry (oracle : Int → Bool) (pl : Int → Int)
    (i : Int) (st : Test4State) (d : Nat)
    (hd1 : 2000 < d) (hd2 : d ≤ 3000)
    (hmiss : ∀ e : Nat, 1 ≤ e → e < d →
      oracle (anchorAt pl i - (e : Int)) = false ∧
      oracle (anchorAt pl i + (e : Int)) = false)
    (hhit : oracle (anchorAt pl i - (d : Int)) = true ∨
      oracle (anchorAt pl i + (d : Int)) = true)
    (hcomp : oracle (d : Int) = false) :
    searchNearest oracle (anchorAt pl i) 3000 =
      ⟨d, if oracle (anchorAt pl i - (d : Int)) then anchorAt pl i - (d : Int)
        else anchorAt pl i + (d : Int), true⟩ ∧
    searchNearest oracle (anchorAt pl i) 2000 = ⟨0, 0, false⟩ ∧
    (anchorAt pl i % 2310 = 0 →
      (test4Step oracle pl i st).total_law_I_failures =
        st.total_law_I_failures + 1) ∧
    (anchorAt pl i % 2310 ≠ 0 → test4Step oracle pl i st = st) := by
  have h3000 : searchNearest oracle (anchorAt pl i) 3000 =
      ⟨d, if oracle (anchorAt pl i - (d : Int)) then anchorAt pl i - (d : Int)
        else anchorAt pl i + (d : Int), true⟩ :=
    searchFrom_hit oracle oracle (anchorAt pl i) d hhit 3000 1 (by omega)
      (by omega) hmiss
  have h2000 : searchNearest oracle (anchorAt pl i) 2000 = ⟨0, 0, false⟩ :=
    searchFrom_not_found oracle oracle (anchorAt pl i) 2000 1
      (fun e he1 he2 => hmiss e he1 (by omega))
  have hcompT : is_k_composite d oracle = true := by
    unfold is_k_composite
    rw [hcomp]
    simp
    omega
  have hbeq : (d == 0) = false := by
    simp
    omega
  refine ⟨h3000, h2000, ?_, ?_⟩
  · intro hperf
    have hperfT : ((anchorAt pl i % 2310 == 0) : Bool) = true := by
      simp [hperf]
    unfold test4Step
    simp only [hperfT, if_true, h3000, hbeq, Bool.false_eq_true, if_false,
      hcompT]
    by_cases hdiv :
        (d % 3 == 0 || d % 5 == 0 || d % 7 == 0 || d % 11 == 0) = true <;>
      simp [hdiv]
  · intro hperf
    have hperfF : ((anchorAt pl i % 2310 == 0) : Bool) = false := by
      simp [hperf]
    unfold test4Step
    simp only [hperfF, Bool.false_eq_true, if_false, h2000]
    simp

/-- Oracle of the C10 witness: the single prime 4311 = 2310 + 2001. -/
def w10oracle : Int → Bool := fun x => decide (x = 4311)

/-- Prime list of the C10 witness: constant 1155, so every anchor is
the perfect value 2310. -/
def w10pl : Int → Int := fun _ => 1155

/-- Empty test-4 state used by the C10 witness. -/
def w10st : Test4State := ⟨0, 0, fun _ => 0, []⟩

/-- C10 witness: the anchor 2310 has its nearest prime at distance
2001, beyond the 2000 cap but inside the 3000 cap, so the 3000 search
finds it, the 2000 search gives up, and as a perfect anchor the
failure is counted. -/
theorem mod2310_cap_asymmetry_witness :
    searchNearest w10oracle (anchorAt w10pl 0) 3000 =
      ⟨2001, if w10oracle (anchorAt w10pl 0 - ((2001 : Nat) : Int)) then
        anchorAt w10pl 0 - ((2001 : Nat) : Int)
        else anchorAt w10pl 0 + ((2001 : Nat) : Int), true⟩ ∧
    searchNearest w10oracle (anchorAt w10pl 0) 2000 = ⟨0, 0, false⟩ ∧
    (anchorAt w10pl 0 % 2310 = 0 →
      (test4Step w10oracle w10pl 0 w10st).total_law_I_failures =
        w10st.total_law_I_failures + 1) ∧
    (anchorAt w10pl 0 % 2310 ≠ 0 → test4Step w10oracle w10pl 0 w10st = w10st) :=
  mod2310_cap_asymmetry w10oracle w10pl 0 w10st 2001 (by omega) (by omega)
    (by
      intro e h1 h2
      have hanchor : anchorAt w10pl 0 = 2310 := rfl
      constructor
      · show decide (anchorAt w10pl 0 - (e : Int) = 4311) = false
        apply decide_eq_false
        rw [hanchor]
        omega
      · show decide (anchorAt w10pl 0 + (e : Int) = 4311) = false
        apply decide_eq_false
        rw [hanchor]
        omega)
    (Or.inr (by decide))
    (by decide)

/-- C7 counterexample: the pre-loop check of the classifier pipelines
is a pure count check.  On the list of the first eleven primes with
one pair to test from index 0, the check passes even though the
maximum possible lookup (anchor 2 + 3 = 5 plus the 2000 cap) far
exceeds the largest loaded prime 31, so the check does not verify
coverage of max anchor value + search cap. -/
theorem precheck_not_coverage_counterexample :
    test2_precheck [2, 3, 5, 7, 11, 13, 17, 19, 23, 29, 31] 1 0 = true ∧
    ¬ spec_covers_max_lookup [2, 3, 5, 7, 11, 13, 17, 19, 23, 29, 31] 1 0 2000 := by
  constructor
  · decide
  · intro h
    exact absurd (h 0 le_rfl (by omega)) (by decide)

/-- C7 amended: the pre-loop check of the S_n pipelines only verifies
that the prime list holds enough entries for the index accesses of the
main loop (at least maxPairs + startIndex + 10), aborting fatally when
it does not; the value coverage of anchor + cap is checked only by the
composite-k-distribution pipeline, inside its main loop, where a
violation likewise aborts the entire run. -/
theorem precheck_amended (pl : List Int) (mp si : Nat) :
    (test2_precheck pl mp si = true →
      ∀ i : Nat, si ≤ i → i < si + mp → i + 1 < pl.length) ∧
    (∀ (oracle : Int → Bool) (maxP S : Int) (st : KDistState),
      maxP < S + 2000 → analyzeStep oracle maxP S st = (st, true)) := by
  constructor
  · intro h i h1 h2
    have hlen : mp + si + 10 ≤ pl.length := by
      simpa [test2_precheck] using h
    omega
  · intro oracle maxP S st h
    unfold analyzeStep
    rw [if_pos h]

/-- C7 witness: on the eleven-prime list the count precheck guarantees
the index accesses of a single pair, and the analyze step aborts
fatally at an anchor whose lookup range exceeds the largest prime. -/
theorem precheck_amended_witness :
    (∀ i : Nat, 0 ≤ i → i < 0 + 1 →
      i + 1 < ([2, 3, 5, 7, 11, 13, 17, 19, 23, 29, 31] : List Int).length) ∧
    analyzeStep (fun _ => false) 0 5 initKDistState = (initKDistState, true) :=
  ⟨(precheck_amended [2, 3, 5, 7, 11, 13, 17, 19, 23, 29, 31] 1 0).1 (by decide),
    (precheck_amended [2, 3, 5, 7, 11, 13, 17, 19, 23, 29, 31] 1 0).2
      (fun _ => false) 0 5 initKDistState (by omega)⟩

/-- C8: nearest-primorial-multiple anchor.  For every prime q > 7 and
modulus P in {6, 30, 210}, get_closest_anchor returns a multiple of P
and it is the single closest multiple: its distance to q is strictly
smaller than that of every other integer multiple of P (no tie can
occur, because a tie would force 3 to divide q). -/
theorem closest_anchor_minimal (q P : Nat) (hq : Nat.Prime q) (hq7 : 7 < q)
    (hP : P = 6 ∨ P = 30 ∨ P = 210) :
    P ∣ get_closest_anchor q P ∧
    ∀ m : Int, m * (P : Int) ≠ (get_closest_anchor q P : Int) →
      |(get_closest_anchor q P : Int) - (q : Int)| <
        |m * (P : Int) - (q : Int)| := by
  have hP0 : 0 < P := by rcases hP with h | h | h <;> omega
  have h3P : 3 ∣ P := by rcases hP with h | h | h <;> subst h <;> decide
  obtain ⟨b, hb⟩ : ∃ b, b = q / P * P := ⟨_, rfl⟩
  have hPb : P ∣ b := hb ▸ dvd_mul_left P (q / P)
  have hbq : b ≤ q := hb ▸ Nat.div_mul_le_self q P
  have hqb : q < b + P := by
    have h2 := Nat.div_add_mod q P
    have h3 := Nat.mod_lt q hP0
    have hb2 : b = P * (q / P) := by rw [hb, Nat.mul_comm]
    omega
  have h3b : 3 ∣ b := dvd_trans h3P hPb
  have hkey : 2 * q ≠ 2 * b + P := by
    intro hcontra
    have h3q : 3 ∣ q := by omega
    have h3eq := (Nat.prime_dvd_prime_iff_eq Nat.prime_three hq).mp h3q
    omega
  have hgc : get_closest_anchor q P =
      if q - b < b + P - q then b else b + P := by
    unfold get_closest_anchor
    rw [← hb]
  rw [hgc]
  have hPdvd : ∀ m : Int, (P : Int) ∣ (m * (P : Int) - (b : Int)) := by
    intro m
    exact dvd_sub (dvd_mul_left _ _) (Int.natCast_dvd_natCast.mpr hPb)
  by_cases hcase : q - b < b + P - q
  · rw [if_pos hcase]
    have hlt : (q : Int) - (b : Int) < (b : Int) + (P : Int) - (q : Int) := by
      omega
    refine ⟨hPb, ?_⟩
    intro m hm
    obtain ⟨c, hc⟩ := hPdvd m
    rcases lt_trichotomy c 0 with hcn | hc0 | hcp
    · have h1 : c ≤ -1 := by omega
      have h2 : (P : Int) * c ≤ (P : Int) * (-1) :=
        mul_le_mul_of_nonneg_left h1 (by positivity)
      have hle : m * (P : Int) ≤ (b : Int) - (P : Int) := by omega
      have habs1 : |(b : Int) - (q : Int)| = (q : Int) - (b : Int) := by
        rw [abs_of_nonpos (by omega)]
        ring
      have habs2 : |m * (P : Int) - (q : Int)| = (q : Int) - m * (P : Int) := by
        rw [abs_of_nonpos (by omega)]
        ring
      rw [habs1, habs2]
      omega
    · exfalso
      apply hm
      subst hc0
      omega
    · have h1 : (1 : Int) ≤ c := by omega
      have h2 : (P : Int) * 1 ≤ (P : Int) * c :=
        mul_le_mul_of_nonneg_left h1 (by positivity)
      have hge : (b : Int) + (P : Int) ≤ m * (P : Int) := by omega
      have habs1 : |(b : Int) - (q : Int)| = (q : Int) - (b : Int) := by
        rw [abs_of_nonpos (by omega)]
        ring
      have habs2 : |m * (P : Int) - (q : Int)| = m * (P : Int) - (q : Int) := by
        rw [abs_of_nonneg (by omega)]
      rw [habs1, habs2]
      omega
  · rw [if_neg hcase]
    have hlt : (b : Int) + (P : Int) - (q : Int) < (q : Int) - (b : Int) := by
      omega
    refine ⟨dvd_add hPb dvd_rfl, ?_⟩
    intro m hm
    push_cast at hm
    obtain ⟨c, hc⟩ := hPdvd m
    by_cases hc1 : c = 1
    · exfalso
      apply hm
      subst hc1
      omega
    · rcases le_or_lt c 0 with hcn | hcp
      · have h2 : (P : Int) * c ≤ (P : Int) * 0 :=
          mul_le_mul_of_nonneg_left hcn (by positivity)
        have hle : m * (P : Int) ≤ (b : Int) := by omega
        have habs1 : |((b + P : Nat) : Int) - (q : Int)| =
            (b : Int) + (P : Int) - (q : Int) := by
          push_cast
          rw [abs_of_nonneg (by omega)]
        have habs2 : |m * (P : Int) - (q : Int)| = (q : Int) - m * (P : Int) := by
          rw [abs_of_nonpos (by omega)]
          ring
        rw [habs1, habs2]
        omega
      · have h2c : (2 : Int) ≤ c := by omega
        have h2 : (P : Int) * 2 ≤ (P : Int) * c :=
          mul_le_mul_of_nonneg_left h2c (by positivity)
        have hge : (b : Int) + 2 * (P : Int) ≤ m * (P : Int) := by omega
        have habs1 : |((b + P : Nat) : Int) - (q : Int)| =
            (b : Int) + (P : Int) - (q : Int) := by
          push_cast
          rw [abs_of_nonneg (by omega)]
        have habs2 : |m * (P : Int) - (q : Int)| = m * (P : Int) - (q : Int) := by
          rw [abs_of_nonneg (by omega)]
        rw [habs1, habs2]
        omega

/-- C8 witness: for the prime 11 and modulus 6 the returned anchor 12
is a multiple of 6 strictly closer to 11 than every other multiple. -/
theorem closest_anchor_minimal_witness :
    6 ∣ get_closest_anchor 11 6 ∧
    ∀ m : Int, m * ((6 : Nat) : Int) ≠ (get_closest_anchor 11 6 : Int) →
      |(get_closest_anchor 11 6 : Int) - ((11 : Nat) : Int)| <
        |m * ((6 : Nat) : Int) - ((11 : Nat) : Int)| :=
  closest_anchor_minimal 11 6 (by norm_num) (by omega) (Or.inl rfl)
